import Mathlib

/-!
Shallow embedding of the template personalization and image-rendering
pipeline of `backend/server.py` (the `generate_invite` endpoint and its
helper `generate_invite_image`), together with proofs about the claims of
the specification.

Conventions of the embedding:
* Python dicts holding customizations are modelled as association lists
  (`List (String × Value)`) in insertion order, which is Python's dict
  iteration order.
* A Pydantic element dict is modelled by the `Element` structure; a field
  stored as `None` is modelled as `Option.none`.  Pydantic `.dict()`
  always stores every key, so `element.get(k, default)` returns the
  stored value — possibly `None` — and never the default; where the code
  then crashes on `None` (text content and fontSize) the crash is
  modelled, and where `None` and the default behave identically (shape)
  `Option.getD` is used.
* External collaborators (PIL image decoding, font loading, text
  rasterization, file saving, and the HTTP client) are modelled as oracle
  parameters; an oracle result of `none` models the library call raising an
  exception at that point.
-/

namespace Convite

/-- A customization value after JSON decoding: the sanitizer keeps only
strings and bounded numbers (`server.py` lines 381-388). -/
inductive Value where
  | vstr (s : String)
  | vint (n : Int)
deriving Repr, DecidableEq

/-- Python `str(value)` for a customization value. -/
def pyStr : Value → String
  | .vstr s => s
  | .vint n => toString n

/-- Customization map in dict iteration (= insertion) order. -/
abbrev Customizations := List (String × Value)

/-- Python `s.lower()` (ASCII, which is all the code's keywords use). -/
def pyLower (s : String) : String := String.mk (s.toList.map Char.toLower)

/-- Is `pat` a contiguous sublist of `s`?  (Python `pat in s`.) -/
def listContainsPat (pat : List Char) : List Char → Bool
  | [] => pat.isEmpty
  | c :: rest => pat.isPrefixOf (c :: rest) || listContainsPat pat rest

/-- Python `pat in s` (substring test). -/
def strContains (s pat : String) : Bool := listContainsPat pat.toList s.toList

/-- Python `s.startswith(pre)`. -/
def pyStartsWith (s pre : String) : Bool := pre.toList.isPrefixOf s.toList

/-- Python `s.endswith(suf)`. -/
def pyEndsWith (s suf : String) : Bool := suf.toList.isSuffixOf s.toList

/-- Fuel-driven leftmost non-overlapping replacement on character lists;
the fuel is the length of the subject, which suffices for a nonempty
pattern. -/
def listReplaceAux (pat rep : List Char) : Nat → List Char → List Char
  | 0, s => s
  | fuel + 1, s =>
    match s with
    | [] => []
    | c :: rest =>
      if pat.isPrefixOf s then rep ++ listReplaceAux pat rep fuel (s.drop pat.length)
      else c :: listReplaceAux pat rep fuel rest

/-- Python `s.replace(pat, rep)` (replace every non-overlapping occurrence,
left to right). -/
def pyReplace (s pat rep : String) : String :=
  String.mk (listReplaceAux pat.toList rep.toList s.toList.length s.toList)

/-- Python `s.split(sep)` for a single-character separator. -/
def pySplitChar (sep : Char) : List Char → List (List Char)
  | [] => [[]]
  | c :: rest =>
    let r := pySplitChar sep rest
    if c = sep then [] :: r
    else
      match r with
      | [] => [[c]]
      | h :: t => (c :: h) :: t

/-- One element of a template, as produced by `TemplateElement.dict()`
(`server.py` lines 58-70). -/
structure Element where
  type : String
  x : Int
  y : Int
  content : Option String := none
  src : Option String := none
  width : Option Int := none
  height : Option Int := none
  fontSize : Option Int := none
  fontFamily : Option String := none
  color : Option String := none
  textAlign : Option String := none
  shape : Option String := none
deriving Repr, DecidableEq

structure Dimensions where
  width : Int
  height : Int
deriving Repr, DecidableEq

/-- A stored template record (`server.py` lines 76-81 / 291-299). -/
structure Template where
  id : String
  name : String
  elements : List Element
  background : String
  dimensions : Dimensions
deriving Repr, DecidableEq

/-- Customization sanitization, `server.py` lines 380-388: keys must be
alphanumeric apart from `_`/`-`, string values are capped at 1000
characters, numbers at ±1000000; everything else is dropped. -/
def sanitizeCustomizations (cs : Customizations) : Customizations :=
  cs.filter fun kv =>
    let stripped := kv.1.toList.filter fun c => !(c = '_' || c = '-')
    (!stripped.isEmpty && stripped.all Char.isAlphanum) &&
      match kv.2 with
      | .vstr s => s.length ≤ 1000
      | .vint n => -1000000 ≤ n && n ≤ 1000000

/-- Placeholder substitution, `server.py` lines 408-412: for each key in
iteration order, if `{key}` occurs in the current content, replace every
occurrence with the stringified value. -/
def substPlaceholders (content : String) (cs : Customizations) : String :=
  cs.foldl
    (fun c kv =>
      let placeholder := "\x7b" ++ kv.1 ++ "\x7d"
      if strContains c placeholder then pyReplace c placeholder (pyStr kv.2) else c)
    content

/-- The four keyword-group conditions of the loop at `server.py` lines
417-428: the key belongs (case-insensitively) to a group and the current
content (case-insensitively) contains a synonym of the same group. -/
def keywordGroupFires (k : String) (contentLower : String) : Bool :=
  let kl := pyLower k
  ((kl == "nome" || kl == "name") &&
      (strContains contentLower "nome" || strContains contentLower "name")) ||
  ((kl == "evento" || kl == "event") &&
      (strContains contentLower "evento" || strContains contentLower "event")) ||
  ((kl == "data" || kl == "date") &&
      (strContains contentLower "data" || strContains contentLower "date")) ||
  ((kl == "local" || kl == "location") &&
      (strContains contentLower "local" || strContains contentLower "location"))

/-- The per-key condition of the keyword/positional loop, `server.py`
lines 416-431: the four keyword groups checked against the lowercased
(already placeholder-substituted) content, then the positional
`texto_` key for the element's (1-indexed) position. -/
def textRuleFires (k : String) (contentLower : String) (idx : Nat) : Bool :=
  keywordGroupFires k contentLower || (k == "texto_" ++ toString (idx + 1))

/-- Resolution of a text element, `server.py` lines 403-435.
`idx` is the value of `template['elements'].index(element)`.
A stored content of `None` (pydantic `.dict()` always stores the key, so
`element.get('content', '')` returns `None`, not `''`) makes the code
raise for *every* customization map: `placeholder in content` (line 411)
raises when the map is nonempty, and `content.lower()` (line 415), which
runs unconditionally, raises even when it is empty.  The raise is
modelled as `none` and propagates out of the endpoint body. -/
def resolveTextEl (cs : Customizations) (idx : Nat) (e : Element) : Option Element :=
  match e.content with
  | none => none
  | some original =>
    let substituted := substPlaceholders original cs
    let keywordHit := cs.find? fun kv => textRuleFires kv.1 (pyLower substituted) idx
    let contentAfterKeyword : Option String :=
      match keywordHit with
      | some kv => some (pyStr kv.2)
      | none => e.content
    -- lines 433-435: the placeholder-substituted content wins whenever it
    -- differs from the original, overriding any keyword/positional hit
    if substituted ≠ original then some { e with content := some substituted }
    else some { e with content := contentAfterKeyword }

/-- An HTTP response as seen by `requests.get` (status, declared
content type, raw body bytes). -/
structure HttpResponse where
  status : Nat
  contentType : Option String
  body : List Nat
deriving Repr, DecidableEq

/-- The HTTP client: `none` models `requests.get` raising
(timeout, connection error, ...). -/
abbrev HttpOracle := String → Option HttpResponse

def base64Table : List Char :=
  "ABCDEFGHIJKLMNOPQRSTUVWXYZabcdefghijklmnopqrstuvwxyz0123456789+/".toList

def b64Char (n : Nat) : Char := base64Table.getD n 'A'

/-- Standard base64 of a byte list (Python `base64.b64encode`). -/
def base64Encode : List Nat → String
  | [] => ""
  | [a] => String.mk [b64Char (a / 4), b64Char (a % 4 * 16), '=', '=']
  | [a, b] => String.mk [b64Char (a / 4), b64Char (a % 4 * 16 + b / 16),
      b64Char (b % 16 * 4), '=']
  | a :: b :: c :: rest =>
    String.mk [b64Char (a / 4), b64Char (a % 4 * 16 + b / 16),
      b64Char (b % 16 * 4 + c / 64), b64Char (c % 64)] ++ base64Encode rest

/-- Content-type selection, `server.py` lines 468-478: the response's
declared content type if it is an image type, otherwise by URL extension,
defaulting to JPEG. -/
def contentTypeFor (url : String) (resp : HttpResponse) : String :=
  let ct := resp.contentType.getD "image/jpeg"
  if pyStartsWith ct "image/" then ct
  else if pyEndsWith (pyLower url) ".png" then "image/png"
  else if pyEndsWith (pyLower url) ".gif" then "image/gif"
  else if pyEndsWith (pyLower url) ".webp" then "image/webp"
  else "image/jpeg"

/-- The remote-image fetch of `server.py` lines 447-488: GET the URL; on
status 200 re-encode the body as a data URI; a non-200 status or a raised
exception (`none` from the oracle) yields `none` — the surrounding
`except` only logs. -/
def fetchImageAsDataUrl (http : HttpOracle) (url : String) : Option String :=
  match http url with
  | none => none
  | some resp =>
    if resp.status == 200 then
      some ("data:" ++ contentTypeFor url resp ++ ";base64," ++ base64Encode resp.body)
    else none

/-- The per-key condition of the image branch, `server.py` line 440. -/
def imageRuleFires (k : String) (idx : Nat) : Bool :=
  k == "imagem_" ++ toString (idx + 1) ||
  (pyLower k == "imagem" || pyLower k == "image" ||
   pyLower k == "photo" || pyLower k == "foto")

/-- Resolution of an image element's `src`, `server.py` lines 437-489:
the first key matching the rule wins (the loop `break`s after it whatever
the outcome); a data-URI value is used verbatim, an `http` value goes
through the fetcher with the stored `src` kept on failure, anything else
leaves `src` unchanged. -/
def resolveImageSrc (http : HttpOracle) (cs : Customizations) (idx : Nat)
    (src : Option String) : Option String :=
  match cs.find? fun kv => imageRuleFires kv.1 idx with
  | none => src
  | some kv =>
    match kv.2 with
    | .vint _ => src
    | .vstr value =>
      if pyStartsWith value "data:image" then some value
      else if pyStartsWith value "http" then
        match fetchImageAsDataUrl http value with
        | some dataUrl => some dataUrl
        | none => src
      else src

/-- Resolution of one element (`new_element` in the loop body of
`server.py` lines 398-491); `none` models an uncaught exception in the
loop body (only the text branch has one, see `resolveTextEl`). -/
def resolveElement (http : HttpOracle) (cs : Customizations) (idx : Nat)
    (e : Element) : Option Element :=
  if e.type == "text" then resolveTextEl cs idx e
  else if e.type == "image" then some { e with src := resolveImageSrc http cs idx e.src }
  else some e

/-- The body of the resolution loop over the remaining elements.  The
index of each element is computed with `list.index` against the full
original list, i.e. the position of the *first* equal element; an
exception while resolving one element aborts the whole loop. -/
def resolveElementsAux (http : HttpOracle) (allEls : List Element)
    (cs : Customizations) : List Element → Option (List Element)
  | [] => some []
  | e :: rest =>
    match resolveElement http cs (allEls.indexOf e) e with
    | none => none
    | some e' =>
      match resolveElementsAux http allEls cs rest with
      | none => none
      | some rest' => some (e' :: rest')

/-- The resolution loop, `server.py` lines 396-491.  A raise while
resolving any element propagates out (to the endpoint's catch-all). -/
def resolveElements (http : HttpOracle) (els : List Element)
    (cs : Customizations) : Option (List Element) :=
  resolveElementsAux http els cs els

/-! ### Image compositor (`generate_invite_image`, `server.py` lines 532-638)

PIL primitives are modelled at the pixel level: an image is a total pixel
function with a size, and the library entry points that can raise are
oracle fields returning `Option`. -/

structure Color where
  r : Nat
  g : Nat
  b : Nat
deriving Repr, DecidableEq

def Color.white : Color := ⟨255, 255, 255⟩

/-- The RGB canvas being composited. -/
structure Canvas where
  width : Nat
  height : Nat
  px : Nat → Nat → Color

/-- A decoded PIL image: RGB pixels plus an alpha band when the mode is
RGBA. -/
structure PILImage where
  width : Nat
  height : Nat
  px : Nat → Nat → Color
  alpha : Option (Nat → Nat → Nat)

/-- A loaded font handle (its identity is irrelevant to every claim). -/
structure Font where
  idx : Nat
deriving Repr, DecidableEq

/-- The default bitmap font from `ImageFont.load_default()`, which never fails. -/
def Font.default : Font := ⟨0⟩

def hexDigit (c : Char) : Option Nat :=
  if '0' ≤ c ∧ c ≤ '9' then some (c.toNat - '0'.toNat)
  else if 'a' ≤ c ∧ c ≤ 'f' then some (c.toNat - 'a'.toNat + 10)
  else if 'A' ≤ c ∧ c ≤ 'F' then some (c.toNat - 'A'.toNat + 10)
  else none

/-- Modelled from the spec: colors are RGB hex strings (`#rrggbb`); PIL's
color parser raises `ValueError` on anything it does not recognise, which
is modelled as `none`. -/
def parseColor (s : String) : Option Color :=
  match s.toList with
  | ['#', r1, r2, g1, g2, b1, b2] => do
    let rh ← hexDigit r1
    let rl ← hexDigit r2
    let gh ← hexDigit g1
    let gl ← hexDigit g2
    let bh ← hexDigit b1
    let bl ← hexDigit b2
    pure ⟨rh * 16 + rl, gh * 16 + gl, bh * 16 + bl⟩
  | _ => none

/-- Modelled from the spec: `PIL.Image.resize((w, h))` stretches without
preserving aspect ratio; pixels are taken by coordinate scaling. -/
def resizeImg (img : PILImage) (w h : Nat) : PILImage :=
  { width := w, height := h,
    px := fun i j => img.px (i * img.width / w) (j * img.height / h),
    alpha := img.alpha.map fun a i j => a (i * img.width / w) (j * img.height / h) }

/-- Modelled from the spec: `ImageDraw.ellipse((0, 0, w, h), fill=255)` on
an all-zero single-channel mask of size `w × h` fills the pixels whose
center lies inside the axis-aligned ellipse spanning that bounding box. -/
def insideEllipse (w h i j : Nat) : Bool :=
  (2 * (i : Int) + 1 - w) ^ 2 * (h : Int) ^ 2 +
    (2 * (j : Int) + 1 - h) ^ 2 * (w : Int) ^ 2 ≤ (w : Int) ^ 2 * (h : Int) ^ 2

/-- The circular mask built at `server.py` lines 610-612: 255 inside the
ellipse, 0 outside. -/
def ellipseMask (w h : Nat) : Nat → Nat → Nat := fun i j =>
  if insideEllipse w h i j then 255 else 0

/-- Alpha blending of one channel as done by `Image.paste` with a mask. -/
def blendChannel (s d a : Nat) : Nat := (s * a + d * (255 - a)) / 255

def blend (s d : Color) (a : Nat) : Color :=
  ⟨blendChannel s.r d.r a, blendChannel s.g d.g a, blendChannel s.b d.b a⟩

/-- Pasting via `Image.paste(img, (x, y))`, using `img` itself as the mask when it has
an alpha band (`server.py` lines 618-621). -/
def pasteImage (cv : Canvas) (img : PILImage) (x y : Int) : Canvas :=
  { cv with
    px := fun i j =>
      if x ≤ (i : Int) ∧ (i : Int) < x + img.width ∧
          y ≤ (j : Int) ∧ (j : Int) < y + img.height then
        let si := ((i : Int) - x).toNat
        let sj := ((j : Int) - y).toNat
        match img.alpha with
        | none => img.px si sj
        | some a => blend (img.px si sj) (cv.px i j) (a si sj)
      else cv.px i j }

/-- The PIL entry points the compositor calls.  A `none` result models the
call raising an exception at that point. -/
structure PILOracle where
  /-- Decoding via `base64.b64decode` + `Image.open` on the payload of a data URI. -/
  decodeDataUrl : String → Option PILImage
  /-- Loading `ImageFont.truetype("/usr/share/fonts/.../DejaVuSans.ttf", size)`. -/
  truetypeDejaVu : Int → Option Font
  /-- Loading `ImageFont.truetype("arial.ttf", size)`. -/
  truetypeArial : Int → Option Font
  /-- The successful effect of one `draw.text((x, y), line, fill, font)`. -/
  renderLine : Canvas → Int → Int → String → Color → Font → Canvas
  /-- Saving via `img.save(path, 'PNG', quality=95)`. -/
  save : Canvas → String → Option Unit

/-- The ink `draw.text` uses when `fill` is `None` (PIL accepts a `None`
fill without raising; the color actually drawn is irrelevant to every
claim and modelled as black). -/
def defaultInk : Color := ⟨0, 0, 0⟩

/-- Drawing a text element, `server.py` lines 568-589.  Only the font
loading chain has a per-element fallback.  Pydantic `.dict()` always
stores the keys, so `element.get('content', '')` and
`element.get('fontSize', 24)` return the stored value — possibly `None` —
and never the default: a `None` content crashes `content.split` (line
586), a `None` fontSize crashes `i * font_size` (line 588; the line list
is never empty), and a fill string PIL cannot parse makes `draw.text`
raise (line 589).  None of these is caught per element, so each is
modelled as `none` and aborts the whole composite. -/
def drawTextElement (o : PILOracle) (cv : Canvas) (e : Element) : Option Canvas :=
  let x := e.x
  let y := e.y
  match e.content with
  | none => none
  | some content =>
    match e.fontSize with
    | none => none
    | some fontSize =>
      let font :=
        match o.truetypeDejaVu fontSize with
        | some f => f
        | none =>
          match o.truetypeArial fontSize with
          | some f => f
          | none => Font.default
      let lines := pySplitChar '\x0a' content.toList
      match e.color with
      | none =>
        some ((lines.enum).foldl
          (fun canvas p =>
            o.renderLine canvas x (y + (p.1 : Int) * fontSize) (String.mk p.2)
              defaultInk font)
          cv)
      | some colorStr =>
        match parseColor colorStr with
        | none => none
        | some color =>
          some ((lines.enum).foldl
            (fun canvas p =>
              o.renderLine canvas x (y + (p.1 : Int) * fontSize) (String.mk p.2)
                color font)
            cv)

/-- Drawing an image element, `server.py` lines 591-624.  The whole body
is inside `try/except`, so any failure — empty `src`, decode failure, a
`None` or negative resize target (the stored `width`/`height` may be
`None`, in which case `resize` raises and the element is skipped) — just
skips the element.  A `None` shape compares unequal to `'circle'`,
exactly like the `'rectangle'` default. -/
def drawImageElement (o : PILOracle) (cv : Canvas) (e : Element) : Canvas :=
  match e.src with
  | none => cv
  | some src =>
    if src == "" then cv
    else
      match o.decodeDataUrl src with
      | none => cv
      | some img =>
        match e.width, e.height with
        | some w, some h =>
          if w < 0 || h < 0 then cv
          else
            let resized := resizeImg img w.toNat h.toNat
            let masked :=
              if (e.shape.getD "rectangle") == "circle" then
                { resized with alpha := some (ellipseMask w.toNat h.toNat) }
              else resized
            pasteImage cv masked e.x e.y
        | _, _ => cv

/-- One iteration of the element loop, `server.py` lines 567-624. -/
def drawElement (o : PILOracle) (cv : Canvas) (e : Element) : Option Canvas :=
  if e.type == "text" then drawTextElement o cv e
  else if e.type == "image" then some (drawImageElement o cv e)
  else some cv

/-- The element loop: a text-element failure aborts the fold, image
elements never do. -/
def drawElements (o : PILOracle) (cv : Canvas) (els : List Element) : Option Canvas :=
  els.foldlM (drawElement o) cv

/-- Canvas allocation and background drawing, `server.py` lines 545-564.
A malformed hex background raises inside `Image.new` (uncaught there); a
failing data-URI background is caught and leaves the white canvas. -/
def mkBaseCanvas (o : PILOracle) (background : String) (w h : Nat) : Option Canvas :=
  let base : Canvas := ⟨w, h, fun _ _ => Color.white⟩
  if pyStartsWith background "#" then
    match parseColor background with
    | some c => some ⟨w, h, fun _ _ => c⟩
    | none => none
  else if pyStartsWith background "data:image" then
    match o.decodeDataUrl background with
    | none => some base
    | some bg => some (pasteImage base { resizeImg bg w h with alpha := none } 0 0)
  else some base

/-- The helper `generate_invite_image`, `server.py` lines 532-638: the whole body is
inside `try/except`, and on any uncaught exception the function returns
`None` instead of raising. -/
def generateInviteImage (o : PILOracle) (template : Template)
    (elements : List Element) (imageFilename : String) : Option String :=
  let width := template.dimensions.width
  let height := template.dimensions.height
  if width < 0 || height < 0 then none
  else
    match mkBaseCanvas o template.background width.toNat height.toNat with
    | none => none
    | some canvas =>
      match drawElements o canvas elements with
      | none => none
      | some canvas =>
        match o.save canvas imageFilename with
        | none => none
        | some _ => some ("/api/images/" ++ imageFilename)

/-! ### Render orchestrator (`generate_invite`, `server.py` lines 372-530) -/

/-- A generated-invite record as persisted at `server.py` lines 500-510. -/
structure GeneratedInvite where
  id : String
  template_id : String
  template_name : String
  elements : List Element
  background : String
  dimensions : Dimensions
  customizations : Customizations
  image_url : Option String
deriving Repr, DecidableEq

/-- The two collections the endpoint touches. -/
structure Store where
  templates : List Template
  generated : List GeneratedInvite
deriving Repr, DecidableEq

/-- The lookup `templates_collection.find_one` by template id. -/
def findTemplate (store : Store) (tid : String) : Option Template :=
  store.templates.find? fun t => t.id == tid

/-- The response body built at `server.py` lines 520-525. -/
structure GenResponse where
  invite_id : String
  template_id : String
  image_url : String
  customizations : Customizations
deriving Repr, DecidableEq

/-- An exception raised inside the endpoint body: either an
`HTTPException` the code raises deliberately, or an uncaught runtime
error (e.g. the `TypeError`/`AttributeError` from a `None` text
content). -/
inductive PyExc where
  | httpException (status : Nat) (detail : String)
  | typeError (detail : String)
deriving Repr, DecidableEq

/-- An HTTP error surfaced to the caller. -/
structure HErr where
  status : Nat
  detail : String
deriving Repr, DecidableEq

/-- Python `f"{x}"` for an optional string: `None` formats as `"None"`. -/
def pyFStr : Option String → String
  | none => "None"
  | some s => s

/-- The base URL hardcoded at `server.py` line 516. -/
def request_url : String :=
  "https://a4db54da-b296-42be-9eb9-b8108a30fb67.preview.emergentagent.com"

/-- The body of the `try` block of `generate_invite`, `server.py` lines
375-525.  `invite_id` and `imageFilename` stand for the freshly generated
UUID and output filename. -/
def generate_invite_body (o : PILOracle) (http : HttpOracle) (store : Store)
    (template_id : String) (customizations : Customizations)
    (invite_id imageFilename : String) : Except PyExc (GenResponse × Store) :=
  if template_id.length < 10 then
    .error (.httpException 400 "ID de template inválido")
  else
    let sanitized := sanitizeCustomizations customizations
    match findTemplate store template_id with
    | none => .error (.httpException 404 "Template não encontrado")
    | some template =>
      match resolveElements http template.elements sanitized with
      | none => .error (.typeError "NoneType content in text element")
      | some personalized =>
        let image_url := generateInviteImage o template personalized imageFilename
        let invite : GeneratedInvite :=
          { id := invite_id, template_id := template_id,
            template_name := template.name, elements := personalized,
            background := template.background, dimensions := template.dimensions,
            customizations := sanitized, image_url := image_url }
        let store' : Store := { store with generated := store.generated ++ [invite] }
        let full_image_url := request_url ++ pyFStr image_url
        .ok ({ invite_id := invite_id, template_id := template_id,
               image_url := full_image_url, customizations := sanitized }, store')

/-- The whole endpoint, `server.py` lines 372-530.  The `except Exception`
handler catches every exception — including the `HTTPException(400)` and
`HTTPException(404)` the body itself raises — and re-raises a generic 500.
No store write precedes any raise point, so the store is unchanged on the
error path. -/
def generate_invite (o : PILOracle) (http : HttpOracle) (store : Store)
    (template_id : String) (customizations : Customizations)
    (invite_id imageFilename : String) : Except HErr GenResponse × Store :=
  match generate_invite_body o http store template_id customizations
      invite_id imageFilename with
  | .ok (resp, store') => (.ok resp, store')
  | .error _ => (.error ⟨500, "Erro interno do servidor"⟩, store)

/-! ### Concrete oracles used by the witnesses -/

/-- A PIL oracle on which every fallible library call raises. -/
def noPIL : PILOracle :=
  { decodeDataUrl := fun _ => none, truetypeDejaVu := fun _ => none,
    truetypeArial := fun _ => none, renderLine := fun c _ _ _ _ _ => c,
    save := fun _ _ => none }

/-- An HTTP client on which every request raises. -/
def noHttp : HttpOracle := fun _ => none

/-- A one-pixel white canvas. -/
def blankCanvas : Canvas := ⟨1, 1, fun _ _ => Color.white⟩

/-- The failure condition of the remote fetch: the request raises (no
response) or the response status is not 200. -/
def fetchFails (http : HttpOracle) (url : String) : Prop :=
  ∀ resp, http url = some resp → resp.status ≠ 200

/-- A uniformly colored image of the given size (RGB, no alpha band). -/
def constImage (w h : Nat) (c : Color) : PILImage :=
  { width := w, height := h, px := fun _ _ => c, alpha := none }

/-- The masked image the compositor builds for a 100×100 circular element
over a uniform source. -/
def circleMasked (c : Color) : PILImage :=
  { resizeImg (constImage 100 100 c) 100 100 with
    alpha := some (ellipseMask 100 100) }

/-- A template used by the witnesses: valid id, plain background, no
elements. -/
def witnessTemplate : Template :=
  { id := "template-0123456789", name := "T", elements := [],
    background := "#ffffff", dimensions := ⟨100, 100⟩ }

/-- A text element whose color string cannot be parsed (content and
fontSize are present, so the color is the only failure source). -/
def badColorText : Element :=
  { type := "text", x := 0, y := 0, content := some "hi",
    fontSize := some 24, color := some "###" }

/-- The conditions under which the compositor's text branch raises
(`server.py` lines 586-589): a `None` content crashes `content.split`, a
`None` fontSize crashes `i * font_size`, and a fill string PIL cannot
parse makes `draw.text` raise; a `None` fill is accepted, and the font
loading chain never raises. -/
def textDrawRaises (e : Element) : Bool :=
  e.content.isNone || e.fontSize.isNone ||
    (match e.color with
     | none => false
     | some c => (parseColor c).isNone)

/-- A sample source color for the C8 witness. -/
def redColor : Color := ⟨200, 10, 10⟩

/-- A PIL oracle that decodes every data URI to a 100×100 solid-red
image. -/
def constRedPIL : PILOracle :=
  { decodeDataUrl := fun _ => some (constImage 100 100 redColor),
    truetypeDejaVu := fun _ => none, truetypeArial := fun _ => none,
    renderLine := fun c _ _ _ _ _ => c, save := fun _ _ => none }

/-- A 100×100 circular image element at the origin. -/
def circleEl : Element :=
  { type := "image", x := 0, y := 0, src := some "data:image/png;base64,xyz",
    width := some 100, height := some 100, shape := some "circle" }

/-! ### Helper lemmas -/

theorem substPlaceholders_cons (c : String) (kv : String × Value) (cs : Customizations) :
    substPlaceholders c (kv :: cs) =
      substPlaceholders
        (if strContains c ("\x7b" ++ kv.1 ++ "\x7d") then
          pyReplace c ("\x7b" ++ kv.1 ++ "\x7d") (pyStr kv.2)
        else c) cs := rfl

/-- Placeholder substitution is the identity when no key of the map occurs
as a placeholder in the content. -/
theorem substPlaceholders_id (c : String) (cs : Customizations)
    (h : ∀ kv ∈ cs, strContains c ("\x7b" ++ kv.1 ++ "\x7d") = false) :
    substPlaceholders c cs = c := by
  induction cs with
  | nil => rfl
  | cons kv rest ih =>
    have h1 := h kv (List.mem_cons_self kv rest)
    rw [substPlaceholders_cons, h1]
    simp only [Bool.false_eq_true, if_false]
    exact ih fun kv' h' => h kv' (List.mem_cons_of_mem _ h')

/-- Unfolding of `resolveElement` on a text element. -/
theorem resolveElement_text (http : HttpOracle) (cs : Customizations) (idx : Nat)
    (e : Element) (h : e.type = "text") :
    resolveElement http cs idx e = resolveTextEl cs idx e := by
  unfold resolveElement
  rw [h]
  rfl

/-- Unfolding of `resolveElement` on an image element (the image branch
never raises: all its fallible steps are caught). -/
theorem resolveElement_image (http : HttpOracle) (cs : Customizations) (idx : Nat)
    (e : Element) (h : e.type = "image") :
    resolveElement http cs idx e
      = some { e with src := resolveImageSrc http cs idx e.src } := by
  unfold resolveElement
  rw [h]
  rfl

/-- Unfolding of `resolveTextEl` when the content is present (the only
case in which the text branch does not raise). -/
theorem resolveTextEl_some (cs : Customizations) (idx : Nat) (e : Element)
    (original : String) (h : e.content = some original) :
    resolveTextEl cs idx e =
      (if substPlaceholders original cs ≠ original then
        some { e with content := some (substPlaceholders original cs) }
      else
        some { e with content :=
            match cs.find? fun kv =>
                textRuleFires kv.1 (pyLower (substPlaceholders original cs)) idx with
            | some kv => some (pyStr kv.2)
            | none => e.content }) := by
  unfold resolveTextEl
  rw [h]

/-- When the resolution loop completes, its output at any index is the
resolution of the input element at that index (with the `list.index`
position). -/
theorem resolveElementsAux_getElem (http : HttpOracle) (allEls : List Element)
    (cs : Customizations) :
    ∀ (sub r : List Element), resolveElementsAux http allEls cs sub = some r →
      ∀ i : Nat, r[i]? =
        match sub[i]? with
        | none => none
        | some a => resolveElement http cs (allEls.indexOf a) a := by
  intro sub
  induction sub with
  | nil =>
    intro r hr i
    unfold resolveElementsAux at hr
    injection hr with h
    subst h
    simp
  | cons a rest ih =>
    intro r hr i
    unfold resolveElementsAux at hr
    cases ha : resolveElement http cs (allEls.indexOf a) a with
    | none =>
      rw [ha] at hr
      exact absurd hr (by simp)
    | some e1 =>
      rw [ha] at hr
      cases haux : resolveElementsAux http allEls cs rest with
      | none =>
        rw [haux] at hr
        exact absurd hr (by simp)
      | some rest' =>
        rw [haux] at hr
        simp only [Option.some.injEq] at hr
        subst hr
        cases i with
        | zero => simpa using ha.symm
        | succ n =>
          simp only [List.getElem?_cons_succ]
          exact ih rest' haux n

/-- When the resolution loop completes, it yields one output element per
input element. -/
theorem resolveElementsAux_length (http : HttpOracle) (allEls : List Element)
    (cs : Customizations) :
    ∀ (sub r : List Element), resolveElementsAux http allEls cs sub = some r →
      r.length = sub.length := by
  intro sub
  induction sub with
  | nil =>
    intro r hr
    injection hr with h
    subst h
    rfl
  | cons a rest ih =>
    intro r hr
    unfold resolveElementsAux at hr
    cases ha : resolveElement http cs (allEls.indexOf a) a with
    | none =>
      rw [ha] at hr
      exact absurd hr (by simp)
    | some e1 =>
      rw [ha] at hr
      cases haux : resolveElementsAux http allEls cs rest with
      | none =>
        rw [haux] at hr
        exact absurd hr (by simp)
      | some rest' =>
        rw [haux] at hr
        simp only [Option.some.injEq] at hr
        subst hr
        simp [ih rest' haux]

end Convite

namespace Convite

/-! ### Claims -/

/-- C3: whenever placeholder substitution changed a text element's
content, the element's final resolved content is exactly the
placeholder-substituted content; the keyword loop's effect is overridden
(`server.py` lines 433-435). -/
theorem c3_placeholder_overrides_keyword (cs : Customizations) (idx : Nat)
    (e : Element) (c : String) (hc : e.content = some c)
    (hchanged : substPlaceholders c cs ≠ c) :
    resolveTextEl cs idx e
      = some { e with content := some (substPlaceholders c cs) } := by
  rw [resolveTextEl_some cs idx e c hc, if_pos hchanged]

/-- Witness for C3: content `"nome {x}"` is placeholder-substituted to
`"nome y"`, and the keyword key `nome` (which matches the content) does
not alter the result. -/
theorem c3_placeholder_overrides_keyword_witness :
    resolveTextEl [("x", .vstr "y"), ("nome", .vstr "Z")] 0
      { type := "text", x := 0, y := 0, content := some "nome {x}" }
      = some { type := "text", x := 0, y := 0, content := some "nome y" } := by
  have h := c3_placeholder_overrides_keyword
    [("x", .vstr "y"), ("nome", .vstr "Z")] 0
    { type := "text", x := 0, y := 0, content := some "nome {x}" }
    "nome {x}" rfl (by decide)
  rw [h]
  decide

/-- C5: placeholder substitution replaces every occurrence of each key's
placeholder with the stringified value (examples with one and with two
occurrences), and when no key of the map occurs as a placeholder in the
content and no keyword/positional rule fires, the element is returned
unchanged. -/
theorem c5_placeholder_round_trip :
    (∀ (cs : Customizations) (idx : Nat) (e : Element) (c : String),
        e.content = some c →
        (∀ kv ∈ cs, strContains c ("\x7b" ++ kv.1 ++ "\x7d") = false) →
        (∀ kv ∈ cs, textRuleFires kv.1 (pyLower c) idx = false) →
        resolveTextEl cs idx e = some e)
    ∧ resolveTextEl [("name", .vstr "Ana")] 0
        { type := "text", x := 0, y := 0, content := some "Hello {name}" }
        = some { type := "text", x := 0, y := 0, content := some "Hello Ana" }
    ∧ resolveTextEl [("name", .vstr "Ana")] 0
        { type := "text", x := 0, y := 0, content := some "{name} and {name}" }
        = some { type := "text", x := 0, y := 0, content := some "Ana and Ana" }
    ∧ resolveTextEl [("foo", .vstr "x")] 0
        { type := "text", x := 0, y := 0, content := some "Hello {name}" }
        = some { type := "text", x := 0, y := 0, content := some "Hello {name}" } := by
  refine ⟨?_, by decide, by decide, by decide⟩
  intro cs idx e c hc hnoph hnorule
  have hsub : substPlaceholders c cs = c := substPlaceholders_id c cs hnoph
  rw [resolveTextEl_some cs idx e c hc]
  rw [if_neg (by rw [hsub]; exact fun h => h rfl)]
  have hfind : (cs.find? fun kv =>
      textRuleFires kv.1 (pyLower (substPlaceholders c cs)) idx) = none := by
    rw [hsub]
    exact List.find?_eq_none.mpr fun kv hkv => by rw [hnorule kv hkv]; exact Bool.false_ne_true
  rw [hfind]

/-- Witness for C5's general conjunct: a map whose only key neither
occurs as a placeholder nor fires any rule leaves the element unchanged. -/
theorem c5_placeholder_round_trip_witness :
    resolveTextEl [("foo", .vstr "x")] 0
      { type := "text", x := 0, y := 0, content := some "Hello" }
      = some { type := "text", x := 0, y := 0, content := some "Hello" } :=
  c5_placeholder_round_trip.1 [("foo", .vstr "x")] 0
    { type := "text", x := 0, y := 0, content := some "Hello" } "Hello" rfl
    (by decide) (by decide)

/-- C2 fails as stated: with content `"nome"` and the map
`{nome: "A", texto_1: "B"}` (in that iteration order), the keyword key
`nome` fires first and `break`s the loop, so `texto_1` never replaces the
element's content — the result is `"A"`, not `"B"`. -/
theorem c2_positional_counterexample :
    resolveTextEl [("nome", .vstr "A"), ("texto_1", .vstr "B")] 0
      { type := "text", x := 0, y := 0, content := some "nome" }
      = some { type := "text", x := 0, y := 0, content := some "A" }
    ∧ resolveTextEl [("nome", .vstr "A"), ("texto_1", .vstr "B")] 0
      { type := "text", x := 0, y := 0, content := some "nome" }
      ≠ some { type := "text", x := 0, y := 0, content := some "B" } := by
  decide

/-- C2 as amended: whenever the resolution loop completes (it raises on
any text element whose stored content is `None`), `texto_{N}` replaces
the content of the element at (0-indexed) position `i = N - 1` provided
the element is the first occurrence of its value in the element list (the
code computes the index with `list.index`), placeholder substitution left
the content unchanged, and `texto_{N}` is the first key of the map (in
iteration order) for which any text rule fires. -/
theorem c2_positional_amended (http : HttpOracle) (els : List Element)
    (cs : Customizations) (rs : List Element)
    (hres : resolveElements http els cs = some rs)
    (i : Nat) (hi : i < els.length) (e : Element)
    (he : els[i] = e) (c : String) (hc : e.content = some c)
    (hty : e.type = "text") (hidx : els.indexOf e = i)
    (hsub : substPlaceholders c cs = c) (v : Value)
    (hfind : (cs.find? fun kv => textRuleFires kv.1 (pyLower c) i) =
      some ("texto_" ++ toString (i + 1), v)) :
    rs[i]? = some { e with content := some (pyStr v) } := by
  have hget := resolveElementsAux_getElem http els cs els rs hres i
  rw [hget, List.getElem?_eq_getElem hi, he]
  show resolveElement http cs (els.indexOf e) e
    = some { e with content := some (pyStr v) }
  rw [hidx, resolveElement_text http cs i e hty]
  rw [resolveTextEl_some cs i e c hc]
  rw [if_neg (by rw [hsub]; exact fun h => h rfl), hsub, hfind]

/-- Witness for the amended C2: a one-element template whose content
matches no keyword, customized through `texto_1`. -/
theorem c2_positional_amended_witness :
    ([{ type := "text", x := 0, y := 0, content := some "B" }] : List Element)[0]?
      = some { type := "text", x := 0, y := 0, content := some (pyStr (.vstr "B")) } :=
  c2_positional_amended noHttp
    [{ type := "text", x := 0, y := 0, content := some "a" }]
    [("texto_1", .vstr "B")]
    [{ type := "text", x := 0, y := 0, content := some "B" }] (by decide)
    0 (by decide)
    { type := "text", x := 0, y := 0, content := some "a" } rfl "a" rfl rfl
    (by decide) (by decide) (.vstr "B") (by decide)

/-- C4 fails as stated: with content `"nome"` and the map
`{texto_1: "A", nome: "B"}` (in that iteration order), the positional key
`texto_1` fires first and `break`s the loop, so the keyword key `nome`
(which satisfies the claim's hypothesis) never replaces the content — the
result is `"A"`, not `"B"`. -/
theorem c4_keyword_counterexample :
    resolveTextEl [("texto_1", .vstr "A"), ("nome", .vstr "B")] 0
      { type := "text", x := 0, y := 0, content := some "nome" }
      = some { type := "text", x := 0, y := 0, content := some "A" }
    ∧ resolveTextEl [("texto_1", .vstr "A"), ("nome", .vstr "B")] 0
      { type := "text", x := 0, y := 0, content := some "nome" }
      ≠ some { type := "text", x := 0, y := 0, content := some "B" } := by
  decide

/-- C4 as amended: if placeholder substitution left the content unchanged
and the *first* key of the map (in iteration order) for which any text
rule fires is a keyword-group match, then the element's entire content is
replaced by the stringified value of that key, and no further keys are
checked (the search stops at that first hit). -/
theorem c4_keyword_amended (cs : Customizations) (idx : Nat) (e : Element)
    (c : String) (hc : e.content = some c)
    (hsub : substPlaceholders c cs = c) (k : String) (v : Value)
    (hfind : (cs.find? fun kv => textRuleFires kv.1 (pyLower c) idx) = some (k, v))
    (_hkw : keywordGroupFires k (pyLower c) = true) :
    resolveTextEl cs idx e = some { e with content := some (pyStr v) } := by
  rw [resolveTextEl_some cs idx e c hc]
  rw [if_neg (by rw [hsub]; exact fun h => h rfl), hsub, hfind]

/-- Witness for the amended C4: content `"nome do convidado"` with the
single customization `{nome: "Beto"}` is wholly replaced by `"Beto"`. -/
theorem c4_keyword_amended_witness :
    resolveTextEl [("nome", .vstr "Beto")] 0
      { type := "text", x := 0, y := 0, content := some "nome do convidado" }
      = some { type := "text", x := 0, y := 0,
               content := some (pyStr (.vstr "Beto")) } :=
  c4_keyword_amended [("nome", .vstr "Beto")] 0
    { type := "text", x := 0, y := 0, content := some "nome do convidado" }
    "nome do convidado" rfl (by decide) "nome" (.vstr "Beto") (by decide) (by decide)

/-- C1 is the intent, but the code loses the 404: the body of
`generate_invite` does raise `HTTPException(404, "Template não
encontrado")` on a failed template lookup, yet the endpoint's blanket
`except Exception` (which also catches `HTTPException`) converts it into
a generic 500 — the caller observes InternalError, not NotFound. -/
theorem c1_lookup_failure_converted_to_500 :
    generate_invite_body noPIL noHttp ⟨[], []⟩ "missing-template-000" [] "inv"
        "img.png"
      = .error (.httpException 404 "Template não encontrado")
    ∧ (generate_invite noPIL noHttp ⟨[], []⟩ "missing-template-000" [] "inv"
        "img.png").1
      = .error ⟨500, "Erro interno do servidor"⟩
    ∧ (generate_invite noPIL noHttp ⟨[], []⟩ "missing-template-000" [] "inv"
        "img.png").1
      ≠ .error ⟨404, "Template não encontrado"⟩ := by
  refine ⟨rfl, rfl, ?_⟩
  intro h
  have h500 : (generate_invite noPIL noHttp ⟨[], []⟩ "missing-template-000" [] "inv"
      "img.png").1 = Except.error (HErr.mk 500 "Erro interno do servidor") := rfl
  have h2 := Except.error.inj (h500.symm.trans h)
  exact absurd (congrArg HErr.status h2) (by decide)

/-- C6: a generate call never mutates the stored templates — the store
returned by the endpoint carries exactly the template list it started
with, on the success path and on every error path. -/
theorem c6_templates_never_mutated (o : PILOracle) (http : HttpOracle)
    (store : Store) (template_id : String) (cs : Customizations)
    (invite_id imageFilename : String) :
    ((generate_invite o http store template_id cs invite_id imageFilename).2).templates
      = store.templates := by
  unfold generate_invite generate_invite_body
  split
  next heq =>
    split at heq
    · exact absurd heq (by simp)
    · split at heq
      · exact absurd heq (by simp)
      · simp only [] at heq
        split at heq
        · exact absurd heq (by simp)
        · simp only [Except.ok.injEq, Prod.mk.injEq] at heq
          rw [← heq.2]
  next => rfl

/-- A failing fetch produces no data URL. -/
theorem fetchImageAsDataUrl_none (http : HttpOracle) (url : String)
    (hfail : fetchFails http url) : fetchImageAsDataUrl http url = none := by
  unfold fetchImageAsDataUrl
  split
  · rfl
  next resp heq =>
    rw [if_neg]
    simpa using hfail resp heq

/-- C7: when the matched customization value of an image element is an
HTTP(S) URL and the remote fetch fails in any way (raised exception or
non-2xx status), the element is resolved with its `src` unchanged — in
fact entirely unchanged, and without raising; whenever the resolution
loop completes it yields one output per input element; and the endpoint
still returns a success response whenever the template exists and
resolution completes (resolution can only raise on a `None`-content text
element, never from the fetch). -/
theorem c7_fetch_failure_absorbed (http : HttpOracle) (cs : Customizations)
    (idx : Nat) (e : Element) (hty : e.type = "image") (k : String) (url : String)
    (hfind : (cs.find? fun kv => imageRuleFires kv.1 idx) = some (k, .vstr url))
    (hurl : pyStartsWith url "http" = true)
    (hnd : pyStartsWith url "data:image" = false)
    (hfail : fetchFails http url) :
    resolveElement http cs idx e = some e
    ∧ (∀ els rs, resolveElements http els cs = some rs → rs.length = els.length)
    ∧ (∀ (o : PILOracle) (store : Store) (tid : String) (iid fn : String)
        (t : Template), ¬ tid.length < 10 → findTemplate store tid = some t →
        (resolveElements http t.elements (sanitizeCustomizations cs)).isSome = true →
        ∃ resp store',
          generate_invite o http store tid cs iid fn = (.ok resp, store')) := by
  have hsrc : resolveImageSrc http cs idx e.src = e.src := by
    unfold resolveImageSrc
    rw [hfind]
    simp only
    rw [hnd]
    simp only [Bool.false_eq_true, if_false]
    rw [hurl]
    simp only [if_true]
    rw [fetchImageAsDataUrl_none http url hfail]
  refine ⟨?_, ?_, ?_⟩
  · rw [resolveElement_image http cs idx e hty, hsrc]
  · intro els rs hrs
    exact resolveElementsAux_length http els cs els rs hrs
  · intro o store tid iid fn t hlen hfindT hres
    obtain ⟨rs, hrs⟩ := Option.isSome_iff_exists.mp hres
    unfold generate_invite generate_invite_body
    rw [if_neg hlen, hfindT]
    simp only [hrs]
    exact ⟨_, _, rfl⟩

/-- Witness for C7: an oracle on which every request raises leaves the
image element untouched. -/
theorem c7_fetch_failure_absorbed_witness :
    resolveElement noHttp [("foto", .vstr "http://example.com/a.png")] 0
      { type := "image", x := 0, y := 0, src := some "data:image/png;base64,old" }
      = some { type := "image", x := 0, y := 0,
               src := some "data:image/png;base64,old" } :=
  (c7_fetch_failure_absorbed noHttp [("foto", .vstr "http://example.com/a.png")] 0
    { type := "image", x := 0, y := 0, src := some "data:image/png;base64,old" }
    rfl "foto" "http://example.com/a.png" (by decide) (by decide) (by decide)
    (fun resp h => nomatch h)).1

/-- C9: when resolution completed and image generation then fails as a
whole, `generate_invite_image` returns `None` and the endpoint still
answers with success: the persisted Generated Invite carries
`image_url = None`, while the response's `image_url` is the base URL with
the literal string `"None"` appended (Python's f-string rendering of
`None`); no InternalError is raised. -/
theorem c9_image_failure_not_surfaced (o : PILOracle) (http : HttpOracle)
    (store : Store) (template_id : String) (cs : Customizations)
    (invite_id imageFilename : String) (t : Template) (rs : List Element)
    (hlen : ¬ template_id.length < 10)
    (hfind : findTemplate store template_id = some t)
    (hres : resolveElements http t.elements (sanitizeCustomizations cs) = some rs)
    (himg : generateInviteImage o t rs imageFilename = none) :
    generate_invite o http store template_id cs invite_id imageFilename =
      (.ok { invite_id := invite_id, template_id := template_id,
             image_url := request_url ++ "None",
             customizations := sanitizeCustomizations cs },
       { store with generated := store.generated ++
          [{ id := invite_id, template_id := template_id,
             template_name := t.name, elements := rs,
             background := t.background, dimensions := t.dimensions,
             customizations := sanitizeCustomizations cs,
             image_url := none }] }) := by
  unfold generate_invite generate_invite_body
  rw [if_neg hlen, hfind]
  simp only [hres, himg]
  rfl

/-- Witness for C9: with a PIL oracle whose `save` raises, the endpoint
still succeeds and both `"None"` artifacts appear. -/
theorem c9_image_failure_not_surfaced_witness :
    generate_invite noPIL noHttp ⟨[witnessTemplate], []⟩ "template-0123456789"
        [] "inv" "img.png" =
      (.ok { invite_id := "inv", template_id := "template-0123456789",
             image_url := request_url ++ "None", customizations := [] },
       { templates := [witnessTemplate],
         generated := [{
           id := "inv", template_id := "template-0123456789",
           template_name := "T", elements := [], background := "#ffffff",
           dimensions := ⟨100, 100⟩, customizations := [],
           image_url := none }] }) :=
  c9_image_failure_not_surfaced noPIL noHttp ⟨[witnessTemplate], []⟩
    "template-0123456789" [] "inv" "img.png" witnessTemplate []
    (by decide) rfl rfl rfl

/-- A text element on which the text branch raises (`None` content,
`None` fontSize, or an unparseable fill string) makes the draw step
fail; the font-loading chain never contributes a failure. -/
theorem drawTextElement_none (o : PILOracle) (cv : Canvas) (e : Element)
    (h : textDrawRaises e = true) : drawTextElement o cv e = none := by
  unfold drawTextElement
  cases hc : e.content with
  | none => rfl
  | some content =>
    cases hf : e.fontSize with
    | none => rfl
    | some fontSize =>
      cases hcol : e.color with
      | none =>
        exfalso
        unfold textDrawRaises at h
        rw [hc, hf, hcol] at h
        simp at h
      | some cstr =>
        have hpc : parseColor cstr = none := by
          unfold textDrawRaises at h
          rw [hc, hf, hcol] at h
          simpa using h
        simp only [hpc]

/-- A raising text element anywhere in the list aborts the whole fold. -/
theorem drawElements_none_of_mem (o : PILOracle) (els : List Element)
    (e : Element) (hmem : e ∈ els) (hty : e.type = "text")
    (hraise : textDrawRaises e = true) :
    ∀ cv, drawElements o cv els = none := by
  induction els with
  | nil => exact absurd hmem (List.not_mem_nil e)
  | cons hd tl ih =>
    intro cv
    unfold drawElements
    rw [List.foldlM_cons]
    rcases List.mem_cons.mp hmem with hhd | htl
    · have hdty : hd.type = "text" := hhd ▸ hty
      have hdraise : textDrawRaises hd = true := hhd ▸ hraise
      have hnone : drawElement o cv hd = none := by
        unfold drawElement
        rw [hdty]
        exact drawTextElement_none o cv hd hdraise
      rw [hnone]
      rfl
    · cases hstep : drawElement o cv hd with
      | none => rfl
      | some cv' => exact ih htl cv'

/-- C10: per-element error absorption in the compositor covers only image
elements.  If any text element's draw raises (a `None` content, a `None`
fontSize, or a fill string PIL cannot parse — e.g. a malformed color
value; font loading has its own total fallback and never raises), the
whole composite aborts and `generate_invite_image` returns `None`,
producing no image for any element; an image element's draw step, by
contrast, never fails; and a text element's draw step fails exactly under
`textDrawRaises` — a characterization independent of the font oracles. -/
theorem c10_text_failure_aborts_composite (o : PILOracle) (els : List Element)
    (e : Element) (hmem : e ∈ els) (hty : e.type = "text")
    (hraise : textDrawRaises e = true) :
    (∀ cv, drawElements o cv els = none)
    ∧ (∀ (t : Template) (fn : String), generateInviteImage o t els fn = none)
    ∧ (∀ (cv : Canvas) (e' : Element), e'.type = "image" →
        (drawElement o cv e').isSome = true)
    ∧ (∀ (cv : Canvas) (e' : Element), e'.type = "text" →
        ((drawTextElement o cv e').isSome ↔ textDrawRaises e' = false)) := by
  refine ⟨drawElements_none_of_mem o els e hmem hty hraise, ?_, ?_, ?_⟩
  · intro t fn
    unfold generateInviteImage
    simp only [drawElements_none_of_mem o els e hmem hty hraise]
    split
    · rfl
    · split <;> rfl
  · intro cv e' hty'
    unfold drawElement
    rw [hty']
    rfl
  · intro cv e' _hty'
    unfold drawTextElement textDrawRaises
    cases hc : e'.content with
    | none => simp
    | some content =>
      cases hf : e'.fontSize with
      | none => simp
      | some fontSize =>
        cases hcol : e'.color with
        | none => simp
        | some cstr =>
          cases hpc : parseColor cstr with
          | none => simp [hpc]
          | some color => simp [hpc]

/-- Witness for C10: one text element with an unparseable color makes the
whole composite fail. -/
theorem c10_text_failure_aborts_composite_witness :
    drawElements noPIL blankCanvas [badColorText] = none :=
  (c10_text_failure_aborts_composite noPIL [badColorText] badColorText
    (by decide) rfl (by decide)).1 blankCanvas

theorem blendChannel_zero (s d : Nat) : blendChannel s d 0 = d := by
  unfold blendChannel
  simp

theorem blendChannel_full (s d : Nat) : blendChannel s d 255 = s := by
  unfold blendChannel
  simp

/-- Pasting with a fully transparent mask pixel keeps the canvas pixel. -/
theorem blend_zero (s d : Color) : blend s d 0 = d := by
  unfold blend
  rw [blendChannel_zero, blendChannel_zero, blendChannel_zero]

/-- Pasting with a fully opaque mask pixel takes the source pixel. -/
theorem blend_full (s d : Color) : blend s d 255 = s := by
  unfold blend
  rw [blendChannel_full, blendChannel_full, blendChannel_full]

/-- Pixel value of a masked paste inside the pasted region. -/
theorem pasteImage_px_some (cv : Canvas) (img : PILImage) (a : Nat → Nat → Nat)
    (ha : img.alpha = some a) (x y di dj : Nat)
    (hdi : di < img.width) (hdj : dj < img.height) :
    (pasteImage cv img x y).px (x + di) (y + dj) =
      blend (img.px di dj) (cv.px (x + di) (y + dj)) (a di dj) := by
  unfold pasteImage
  simp only
  rw [if_pos (by refine ⟨?_, ?_, ?_, ?_⟩ <;> push_cast <;> omega)]
  have h1 : ((x + di : Nat) : Int) - (x : Nat) = (di : Int) := by push_cast; ring
  have h2 : ((y + dj : Nat) : Int) - (y : Nat) = (dj : Int) := by push_cast; ring
  rw [h1, h2, ha]
  simp

/-- C8: for a 100×100 image element with `shape = circle` and a decodable
source, the compositor masks the resized image with the filled-ellipse
alpha mask before pasting: each of the four corner pixels of the pasted
region is fully transparent (the canvas pixel underneath shows through)
while the center pixel carries the source image's color. -/
theorem c8_circle_mask (o : PILOracle) (cv : Canvas) (e : Element) (x y : Nat)
    (srcColor : Color) (src : String)
    (hty : e.type = "image") (hsrc : e.src = some src) (hne : (src == "") = false)
    (hx : e.x = (x : Int)) (hy : e.y = (y : Int))
    (hw : e.width = some 100) (hh : e.height = some 100)
    (hshape : e.shape = some "circle")
    (hdec : o.decodeDataUrl src = some (constImage 100 100 srcColor)) :
    drawElement o cv e = some (drawImageElement o cv e)
    ∧ (drawImageElement o cv e).px x y = cv.px x y
    ∧ (drawImageElement o cv e).px (x + 99) y = cv.px (x + 99) y
    ∧ (drawImageElement o cv e).px x (y + 99) = cv.px x (y + 99)
    ∧ (drawImageElement o cv e).px (x + 99) (y + 99) = cv.px (x + 99) (y + 99)
    ∧ (drawImageElement o cv e).px (x + 50) (y + 50) = srcColor := by
  have hde : drawElement o cv e = some (drawImageElement o cv e) := by
    unfold drawElement
    rw [hty]
    rfl
  have hdraw : drawImageElement o cv e = pasteImage cv (circleMasked srcColor) x y := by
    unfold drawImageElement circleMasked
    simp only [hsrc, hne, hw, hh, hshape, hdec, hx, hy, Option.getD_some,
      Bool.false_eq_true, if_false]
    rfl
  have halpha : (circleMasked srcColor).alpha = some (ellipseMask 100 100) := rfl
  have hwd : (circleMasked srcColor).width = 100 := rfl
  have hht : (circleMasked srcColor).height = 100 := rfl
  have corner : ∀ di dj : Nat, di < 100 → dj < 100 →
      ellipseMask 100 100 di dj = 0 →
      (drawImageElement o cv e).px (x + di) (y + dj) = cv.px (x + di) (y + dj) := by
    intro di dj hdi hdj hmask
    rw [hdraw, pasteImage_px_some cv _ _ halpha x y di dj
      (lt_of_lt_of_eq hdi hwd.symm) (lt_of_lt_of_eq hdj hht.symm), hmask, blend_zero]
  refine ⟨hde, ?_, ?_, ?_, ?_, ?_⟩
  · have h := corner 0 0 (by decide) (by decide) (by decide)
    simpa using h
  · have h := corner 99 0 (by decide) (by decide) (by decide)
    simpa using h
  · have h := corner 0 99 (by decide) (by decide) (by decide)
    simpa using h
  · exact corner 99 99 (by decide) (by decide) (by decide)
  · rw [hdraw, pasteImage_px_some cv _ _ halpha x y 50 50
      (lt_of_lt_of_eq (show (50:Nat) < 100 by decide) hwd.symm)
      (lt_of_lt_of_eq (show (50:Nat) < 100 by decide) hht.symm)]
    rw [show ellipseMask 100 100 50 50 = 255 from by decide, blend_full]
    rfl

/-- Witness for C8: on a white canvas, the corner pixel stays white and
the center pixel is the source red. -/
theorem c8_circle_mask_witness :
    (drawImageElement constRedPIL blankCanvas circleEl).px 0 0 = Color.white
    ∧ (drawImageElement constRedPIL blankCanvas circleEl).px 50 50 = redColor := by
  have h := c8_circle_mask constRedPIL blankCanvas circleEl 0 0 redColor
    "data:image/png;base64,xyz" rfl rfl (by decide) rfl rfl rfl rfl rfl rfl
  exact ⟨h.2.1, h.2.2.2.2.2⟩

end Convite
